import Mathlib

/-!
Shallow embedding of the `south-african-id` package core
(`src/luhn.ts` and `src/parser.ts`).

Strings are modelled as lists of characters (`Str := List Char`), since
every operation the code performs (trim, slice, regexp test, per-character
scan) is a list operation.  JavaScript's ambient wall clock (`new Date()`)
is threaded through explicitly as a `SimpleDate` parameter `today`: the
code reads the clock only to obtain the current year, month and day, so a
calendar-date triple captures everything the logic depends on.  JS `Date`
objects produced by `new Date(year, monthIndex, day)` are likewise
modelled as calendar triples (`SimpleDate`), which is faithful because
the code only ever constructs midnight dates and only inspects
`getFullYear`/`getMonth`/`getDate` or compares them to "now".
-/

abbrev Str := List Char

/-- The whitespace characters stripped by JavaScript `String.prototype.trim`
(the ASCII members of the WhiteSpace/LineTerminator productions, plus NBSP). -/
def isJsWhitespace (c : Char) : Bool :=
  c = ' ' || c = '\t' || c = '\n' || c = '\r' || c = '\x0b' || c = '\x0c' || c = ' '

/-- Model of `String(idNumber).trim()`: strip leading and trailing whitespace. -/
def jsTrim (s : Str) : Str :=
  ((s.dropWhile isJsWhitespace).reverse.dropWhile isJsWhitespace).reverse

/-- Model of `ID_REGEX.test(id)` for `ID_REGEX = /^\d{13}$/`:
exactly 13 characters, all ASCII digits. -/
def matchesIdRegex (id : Str) : Bool :=
  id.length == 13 && id.all Char.isDigit

/-- Numeric value of an ASCII digit character. -/
def digitVal (c : Char) : Nat := c.toNat - '0'.toNat

/-- Base-10 value of a digit string, accumulator style. -/
def digitsToNat : Str → Nat → Nat
  | [], acc => acc
  | c :: cs, acc => digitsToNat cs (acc * 10 + digitVal c)

/-- Model of JavaScript `parseInt(s, 10)` restricted to what the code feeds
it (no sign, no leading whitespace): the base-10 value of the longest
ASCII-digit prefix, `none` standing for `NaN` when that prefix is empty. -/
def jsParseInt (s : Str) : Option Nat :=
  let ds := s.takeWhile Char.isDigit
  if ds.isEmpty then none else some (digitsToNat ds 0)

/-- Loop body of `luhn` in `src/luhn.ts`, processing the characters of the
reversed input (i.e. right to left), carrying the doubling toggle and the
running sum; `none` models the early `return false` on a non-digit. -/
def luhnGo : Str → Bool → Nat → Option Nat
  | [], _, sum => some sum
  | c :: cs, shouldDouble, sum =>
    if c.isDigit then
      let d := digitVal c
      let d2 := if shouldDouble then (if d * 2 > 9 then d * 2 - 9 else d * 2) else d
      luhnGo cs (!shouldDouble) (sum + d2)
    else none

/-- `luhn` from `src/luhn.ts`: traverse from the rightmost digit to the
left, doubling every second position, and check the total mod 10. -/
def luhn (digits : Str) : Bool :=
  match luhnGo digits.reverse false 0 with
  | some sum => sum % 10 == 0
  | none => false

/-- `RawSegments` from `src/types.ts`: the seven fixed-width slices. -/
structure RawSegments where
  yearPart : Str
  monthPart : Str
  dayPart : Str
  genderSequence : Str
  citizenshipDigit : Str
  legacyDigit : Str
  checksumDigit : Str
deriving DecidableEq

/-- `extractSegments` from `src/parser.ts`: `id.slice(a, b)` is
`(id.drop a).take (b - a)`. -/
def extractSegments (id : Str) : RawSegments :=
  ⟨(id.drop 0).take 2, (id.drop 2).take 2, (id.drop 4).take 2,
   (id.drop 6).take 4, (id.drop 10).take 1, (id.drop 11).take 1,
   (id.drop 12).take 1⟩

inductive Gender
  | male
  | female
deriving DecidableEq

inductive CitizenshipStatus
  | citizen
  | permanent_resident
deriving DecidableEq

inductive InvalidReason
  | INVALID_FORMAT
  | INVALID_DATE
  | INVALID_CITIZENSHIP_DIGIT
  | INVALID_CHECKSUM
deriving DecidableEq

/-- A calendar date triple (month 1-based).  Models both a JS `Date`
constructed by the code and the current wall-clock date. -/
structure SimpleDate where
  year : Nat
  month : Nat
  day : Nat
deriving DecidableEq

/-- Strict date order; `a < b` at day granularity.  Models the JS
comparison `dateA > dateB` between midnight `Date` values, and
`date > new Date()` (a midnight date exceeds the current instant exactly
when its calendar triple is strictly after today's). -/
def dateLt (a b : SimpleDate) : Bool :=
  decide (a.year < b.year ∨ (a.year = b.year ∧
    (a.month < b.month ∨ (a.month = b.month ∧ a.day < b.day))))

/-- Proleptic-Gregorian leap-year rule, as implemented by JS `Date`. -/
def isLeapYear (y : Nat) : Bool :=
  (y % 4 == 0 && y % 100 != 0) || y % 400 == 0

/-- Number of days in a (1-based) month of a given year. -/
def daysInMonth (year month : Nat) : Nat :=
  if month = 2 then (if isLeapYear year then 29 else 28)
  else if month = 4 ∨ month = 6 ∨ month = 9 ∨ month = 11 then 30
  else 31

/-- Model of `new Date(year, monthIndex, day)` for the argument range the
code can reach (`monthIndex ≤ 11`, `1 ≤ day ≤ 31`, `year ≥ 1900`): JS
normalizes an overflowing day by rolling it into the following month
(e.g. Feb 30 → Mar 2).  Since `day ≤ 31` and every month has ≥ 28 days,
at most one month boundary is crossed.  The resulting triple is what
`getFullYear`/`getMonth`/`getDate` report (month stored 1-based here). -/
def jsMakeDate (year monthIndex day : Nat) : SimpleDate :=
  let dim := daysInMonth year (monthIndex + 1)
  if day ≤ dim then ⟨year, monthIndex + 1, day⟩
  else if monthIndex = 11 then ⟨year + 1, 1, day - dim⟩
  else ⟨year, monthIndex + 2, day - dim⟩

/-- `resolveYear` from `src/parser.ts`.  The code reads
`new Date().getFullYear()`; here the current year is passed explicitly. -/
def resolveYear (currentYear : Nat) (yy : Nat) : Nat :=
  if 2000 + yy ≤ currentYear then 2000 + yy else 1900 + yy

/-- `parseDate` from `src/parser.ts`: parse the year/month/day segments,
range-check month and day, resolve the century, build the date via JS
`Date` normalization and reject if it rolled over, reject future dates.
The source checks `getMonth() !== mm - 1` against the 0-based JS month;
with the 1-based `SimpleDate.month` this is `month ≠ mm`. -/
def parseDate (today : SimpleDate) (segments : RawSegments) : Option SimpleDate :=
  match jsParseInt segments.yearPart, jsParseInt segments.monthPart,
        jsParseInt segments.dayPart with
  | some yy, some mm, some dd =>
    if mm < 1 ∨ 12 < mm then none
    else if dd < 1 ∨ 31 < dd then none
    else
      let year := resolveYear today.year yy
      let date := jsMakeDate year (mm - 1) dd
      if date.year ≠ year ∨ date.month ≠ mm ∨ date.day ≠ dd then none
      else if dateLt today date then none
      else some date
  | _, _, _ => none

/-- `calculateAge` from `src/parser.ts`.  JS `getMonth()` is 0-based on
both sides of each comparison, so comparing 1-based months is identical. -/
def calculateAge (today dob : SimpleDate) : Int :=
  let age : Int := (today.year : Int) - (dob.year : Int)
  let hasHadBirthdayThisYear :=
    today.month > dob.month ∨ (today.month = dob.month ∧ today.day ≥ dob.day)
  if hasHadBirthdayThisYear then age else age - 1

/-- `ParsedID` from `src/types.ts` (the `valid: true` variant payload). -/
structure ParsedID where
  idNumber : Str
  dateOfBirth : SimpleDate
  age : Int
  gender : Gender
  citizenship : CitizenshipStatus
  isCitizen : Bool
  segments : RawSegments
deriving DecidableEq

/-- `InvalidID` from `src/types.ts` (the `valid: false` variant payload).
Note it carries no segments field: raw segments exist only on `ParsedID`. -/
structure InvalidID where
  idNumber : Str
  reason : InvalidReason
deriving DecidableEq

/-- `IDResult` from `src/types.ts`: the discriminated union. -/
inductive IDResult
  | valid (p : ParsedID)
  | invalid (i : InvalidID)
deriving DecidableEq

/-- The `invalid` factory at the bottom of `src/parser.ts`. -/
def invalid (idNumber : Str) (reason : InvalidReason) : IDResult :=
  IDResult.invalid ⟨idNumber, reason⟩

/-- The `idNumber` field common to both variants of the union. -/
def IDResult.idNumber : IDResult → Str
  | IDResult.valid p => p.idNumber
  | IDResult.invalid i => i.idNumber

/-- `parse` from `src/parser.ts`: trim, then the four ordered checks,
then derivation of the semantic fields.  `genderSequence >= 5000` with a
`NaN` left side is false in JS, hence the `none => female` arm. -/
def parse (today : SimpleDate) (idNumber : Str) : IDResult :=
  let id := jsTrim idNumber
  if matchesIdRegex id then
    let segments := extractSegments id
    match parseDate today segments with
    | none => invalid id InvalidReason.INVALID_DATE
    | some dateOfBirth =>
      if segments.citizenshipDigit ≠ ['0'] ∧ segments.citizenshipDigit ≠ ['1'] ∧
         segments.citizenshipDigit ≠ ['2'] then
        invalid id InvalidReason.INVALID_CITIZENSHIP_DIGIT
      else if !luhn id then
        invalid id InvalidReason.INVALID_CHECKSUM
      else
        let gender := match jsParseInt segments.genderSequence with
          | some genderSequence =>
            if genderSequence ≥ 5000 then Gender.male else Gender.female
          | none => Gender.female
        let citizenship := if segments.citizenshipDigit = ['0']
          then CitizenshipStatus.citizen else CitizenshipStatus.permanent_resident
        let age := calculateAge today dateOfBirth
        IDResult.valid ⟨id, dateOfBirth, age, gender, citizenship,
          segments.citizenshipDigit == ['0'], segments⟩
  else
    invalid id InvalidReason.INVALID_FORMAT

/-- `isValid` from `src/parser.ts`: `parse(idNumber).valid`. -/
def isValid (today : SimpleDate) (idNumber : Str) : Bool :=
  match parse today idNumber with
  | IDResult.valid _ => true
  | IDResult.invalid _ => false

/-- `getDateOfBirth` from `src/parser.ts`. -/
def getDateOfBirth (today : SimpleDate) (idNumber : Str) : Option SimpleDate :=
  match parse today idNumber with
  | IDResult.valid p => some p.dateOfBirth
  | IDResult.invalid _ => none

/-- `getGender` from `src/parser.ts`. -/
def getGender (today : SimpleDate) (idNumber : Str) : Option Gender :=
  match parse today idNumber with
  | IDResult.valid p => some p.gender
  | IDResult.invalid _ => none

/-- `getAge` from `src/parser.ts`. -/
def getAge (today : SimpleDate) (idNumber : Str) : Option Int :=
  match parse today idNumber with
  | IDResult.valid p => some p.age
  | IDResult.invalid _ => none

/-- `getCitizenship` from `src/parser.ts`. -/
def getCitizenship (today : SimpleDate) (idNumber : Str) : Option CitizenshipStatus :=
  match parse today idNumber with
  | IDResult.valid p => some p.citizenship
  | IDResult.invalid _ => none

/-- The gender-derivation expression from the all-checks-passed path of
`parse` (named here so lemmas can refer to it; definitionally the same
match that `parse` performs inline). -/
def deriveGender (gs : Option Nat) : Gender :=
  match gs with
  | some genderSequence =>
    if genderSequence ≥ 5000 then Gender.male else Gender.female
  | none => Gender.female

/-- Claim-side weighted sum, following the spec's description of the
checksum: scan the digit values right to left with a doubling toggle
(initially off), subtract 9 from any doubled value exceeding 9, and sum.
The argument list is already in right-to-left order. -/
def weightedSumRL : List Nat → Bool → Nat
  | [], _ => 0
  | d :: ds, shouldDouble =>
    (if shouldDouble then (if d * 2 > 9 then d * 2 - 9 else d * 2) else d) +
      weightedSumRL ds (!shouldDouble)

/-- Claim-side predicate, following the spec's words: `(y, m, d)` is a
real calendar date. -/
def isRealCalendarDate (y m d : Nat) : Bool :=
  decide (1 ≤ m ∧ m ≤ 12 ∧ 1 ≤ d ∧ d ≤ daysInMonth y m)

/-- A fixed reference wall-clock date used by the concrete witnesses. -/
def todayRef : SimpleDate := ⟨2025, 10, 11⟩

/-- The known valid ID `9001049818080` (male citizen born 1990-01-04). -/
def vmcID : Str := ['9','0','0','1','0','4','9','8','1','8','0','8','0']

/-- The ID `9002309818089`, whose date portion encodes February 30. -/
def feb30ID : Str := ['9','0','0','2','3','0','9','8','1','8','0','8','9']

/-- A malformed input. -/
def badID : Str := ['b','a','d']

/-- The parsed outcome of `vmcID` as of `todayRef`. -/
def vmcParsed : ParsedID :=
  ⟨vmcID, ⟨1990, 1, 4⟩, 35, Gender.male, CitizenshipStatus.citizen, true,
   ⟨['9','0'], ['0','1'], ['0','4'], ['9','8','1','8'], ['0'], ['8'], ['0']⟩⟩

/-- A head surviving `dropWhile p` fails `p`. -/
theorem dropWhile_head_not {p : Char → Bool} {l : Str} {c : Char}
    (h : (l.dropWhile p).head? = some c) : p c = false := by
  have hm := List.head?_dropWhile_not p l
  rw [h] at hm
  exact hm

/-- `dropWhile` is the identity when the head already fails `p`. -/
theorem dropWhile_eq_self_of_head {p : Char → Bool} {l : Str}
    (h : ∀ c, l.head? = some c → p c = false) : l.dropWhile p = l := by
  cases l with
  | nil => rfl
  | cons a t => exact List.dropWhile_cons_of_neg (by simp [h a rfl])

/-- `dropWhile` only removes from the front, so a last element is kept. -/
theorem getLast?_of_dropWhile {p : Char → Bool} {l : Str} {c : Char}
    (h : (l.dropWhile p).getLast? = some c) : l.getLast? = some c := by
  obtain ⟨t, ht⟩ := @List.dropWhile_suffix Char l p
  rw [← ht, List.getLast?_append, h]
  rfl

/-- Trimming is idempotent. -/
theorem jsTrim_idem (s : Str) : jsTrim (jsTrim s) = jsTrim s := by
  unfold jsTrim
  have h2 : ∀ c,
      (((s.dropWhile isJsWhitespace).reverse.dropWhile isJsWhitespace).head? =
        some c) → isJsWhitespace c = false :=
    fun _ hc => dropWhile_head_not hc
  have hhead : ∀ c,
      ((s.dropWhile isJsWhitespace).reverse.dropWhile
        isJsWhitespace).reverse.head? = some c → isJsWhitespace c = false := by
    intro c hc
    rw [List.head?_reverse] at hc
    have hu := getLast?_of_dropWhile hc
    rw [List.getLast?_reverse] at hu
    exact dropWhile_head_not hu
  rw [dropWhile_eq_self_of_head hhead, List.reverse_reverse,
    dropWhile_eq_self_of_head h2]

/-- `parse` only looks at the trimmed input. -/
theorem parse_jsTrim (today : SimpleDate) (s : Str) :
    parse today (jsTrim s) = parse today s := by
  simp only [parse, jsTrim_idem]

/-- Unfolding of the format regular-expression test. -/
theorem matchesIdRegex_iff {id : Str} :
    matchesIdRegex id = true ↔ id.length = 13 ∧ id.all Char.isDigit = true := by
  simp [matchesIdRegex]

/-- Branch equation: a failed format check yields `INVALID_FORMAT`. -/
theorem parse_of_fmt_false (today : SimpleDate) {s : Str}
    (hf : matchesIdRegex (jsTrim s) = false) :
    parse today s = invalid (jsTrim s) InvalidReason.INVALID_FORMAT := by
  simp only [parse, hf]
  rfl

/-- Branch equation: format passes, date parsing fails. -/
theorem parse_of_date_none {today : SimpleDate} {s : Str}
    (hf : matchesIdRegex (jsTrim s) = true)
    (hd : parseDate today (extractSegments (jsTrim s)) = none) :
    parse today s = invalid (jsTrim s) InvalidReason.INVALID_DATE := by
  simp only [parse, hf, hd]
  rfl

/-- Branch equation: format and date pass, citizenship digit is bad. -/
theorem parse_of_cit_bad {today : SimpleDate} {s : Str} {d : SimpleDate}
    (hf : matchesIdRegex (jsTrim s) = true)
    (hd : parseDate today (extractSegments (jsTrim s)) = some d)
    (hc : (extractSegments (jsTrim s)).citizenshipDigit ≠ ['0'] ∧
          (extractSegments (jsTrim s)).citizenshipDigit ≠ ['1'] ∧
          (extractSegments (jsTrim s)).citizenshipDigit ≠ ['2']) :
    parse today s = invalid (jsTrim s) InvalidReason.INVALID_CITIZENSHIP_DIGIT := by
  simp [parse, hf, hd, hc.1, hc.2.1, hc.2.2]

/-- Branch equation: first three checks pass, the Luhn check fails. -/
theorem parse_of_luhn_false {today : SimpleDate} {s : Str} {d : SimpleDate}
    (hf : matchesIdRegex (jsTrim s) = true)
    (hd : parseDate today (extractSegments (jsTrim s)) = some d)
    (hc : (extractSegments (jsTrim s)).citizenshipDigit = ['0'] ∨
          (extractSegments (jsTrim s)).citizenshipDigit = ['1'] ∨
          (extractSegments (jsTrim s)).citizenshipDigit = ['2'])
    (hl : luhn (jsTrim s) = false) :
    parse today s = invalid (jsTrim s) InvalidReason.INVALID_CHECKSUM := by
  rcases hc with h | h | h <;> simp [parse, hf, hd, hl, h]

/-- Branch equation: all four checks pass. -/
theorem parse_of_all_ok {today : SimpleDate} {s : Str} {d : SimpleDate}
    (hf : matchesIdRegex (jsTrim s) = true)
    (hd : parseDate today (extractSegments (jsTrim s)) = some d)
    (hc : (extractSegments (jsTrim s)).citizenshipDigit = ['0'] ∨
          (extractSegments (jsTrim s)).citizenshipDigit = ['1'] ∨
          (extractSegments (jsTrim s)).citizenshipDigit = ['2'])
    (hl : luhn (jsTrim s) = true) :
    parse today s = IDResult.valid
      ⟨jsTrim s, d, calculateAge today d,
       deriveGender (jsParseInt (extractSegments (jsTrim s)).genderSequence),
       (if (extractSegments (jsTrim s)).citizenshipDigit = ['0']
          then CitizenshipStatus.citizen else CitizenshipStatus.permanent_resident),
       (extractSegments (jsTrim s)).citizenshipDigit == ['0'],
       extractSegments (jsTrim s)⟩ := by
  rcases hc with h | h | h <;> simp [parse, hf, hd, hl, h, deriveGender]

/-- Full case characterization of `parse`: each outcome is equivalent to
the conjunction of its guarding checks, in pipeline order. -/
theorem parse_cases_iff (today : SimpleDate) (s : Str) :
    (parse today s = invalid (jsTrim s) InvalidReason.INVALID_FORMAT ↔
       matchesIdRegex (jsTrim s) = false) ∧
    (parse today s = invalid (jsTrim s) InvalidReason.INVALID_DATE ↔
       matchesIdRegex (jsTrim s) = true ∧
       parseDate today (extractSegments (jsTrim s)) = none) ∧
    (parse today s = invalid (jsTrim s) InvalidReason.INVALID_CITIZENSHIP_DIGIT ↔
       matchesIdRegex (jsTrim s) = true ∧
       (parseDate today (extractSegments (jsTrim s))).isSome = true ∧
       ((extractSegments (jsTrim s)).citizenshipDigit ≠ ['0'] ∧
        (extractSegments (jsTrim s)).citizenshipDigit ≠ ['1'] ∧
        (extractSegments (jsTrim s)).citizenshipDigit ≠ ['2'])) ∧
    (parse today s = invalid (jsTrim s) InvalidReason.INVALID_CHECKSUM ↔
       matchesIdRegex (jsTrim s) = true ∧
       (parseDate today (extractSegments (jsTrim s))).isSome = true ∧
       ((extractSegments (jsTrim s)).citizenshipDigit = ['0'] ∨
        (extractSegments (jsTrim s)).citizenshipDigit = ['1'] ∨
        (extractSegments (jsTrim s)).citizenshipDigit = ['2']) ∧
       luhn (jsTrim s) = false) ∧
    ((∃ p, parse today s = IDResult.valid p) ↔
       matchesIdRegex (jsTrim s) = true ∧
       (parseDate today (extractSegments (jsTrim s))).isSome = true ∧
       ((extractSegments (jsTrim s)).citizenshipDigit = ['0'] ∨
        (extractSegments (jsTrim s)).citizenshipDigit = ['1'] ∨
        (extractSegments (jsTrim s)).citizenshipDigit = ['2']) ∧
       luhn (jsTrim s) = true) := by
  cases hf : matchesIdRegex (jsTrim s) with
  | false =>
    have he := parse_of_fmt_false today hf
    refine ⟨?_, ?_, ?_, ?_, ?_⟩ <;> simp [he, hf, invalid]
  | true =>
    cases hd : parseDate today (extractSegments (jsTrim s)) with
    | none =>
      have he := parse_of_date_none hf hd
      refine ⟨?_, ?_, ?_, ?_, ?_⟩ <;> simp [he, hf, hd, invalid]
    | some d =>
      by_cases hc : (extractSegments (jsTrim s)).citizenshipDigit = ['0'] ∨
          (extractSegments (jsTrim s)).citizenshipDigit = ['1'] ∨
          (extractSegments (jsTrim s)).citizenshipDigit = ['2']
      · cases hl : luhn (jsTrim s) with
        | false =>
          have he := parse_of_luhn_false hf hd hc hl
          rcases hc with h | h | h <;>
            refine ⟨?_, ?_, ?_, ?_, ?_⟩ <;> simp [he, hf, hd, hl, h, invalid]
        | true =>
          have he := parse_of_all_ok hf hd hc hl
          rcases hc with h | h | h <;>
            refine ⟨?_, ?_, ?_, ?_, ?_⟩ <;> simp [he, hf, hd, hl, h, invalid]
      · push_neg at hc
        have he := parse_of_cit_bad hf hd hc
        refine ⟨?_, ?_, ?_, ?_, ?_⟩ <;>
          simp [he, hf, hd, hc.1, hc.2.1, hc.2.2, invalid]

/-- Fixed-width slices of a 13-character string have their nominal length. -/
theorem slice_length {id : Str} (h13 : id.length = 13) (k n : Nat)
    (hkn : k + n ≤ 13) : ((id.drop k).take n).length = n := by
  simp [List.length_take, List.length_drop, h13]
  omega

/-- Slices of an all-digit string are all-digit. -/
theorem slice_digits {id : Str} (hall : id.all Char.isDigit = true) (k n : Nat) :
    ((id.drop k).take n).all Char.isDigit = true := by
  rw [List.all_eq_true] at hall ⊢
  intro c hc
  exact hall c (List.mem_of_mem_drop (List.mem_of_mem_take hc))

/-- `parseInt` on a nonempty all-digit string returns its numeric value. -/
theorem jsParseInt_of_digits {l : Str} (hne : l ≠ [])
    (hall : l.all Char.isDigit = true) :
    jsParseInt l = some (digitsToNat l 0) := by
  unfold jsParseInt
  rw [List.takeWhile_eq_self_iff.mpr (by simpa [List.all_eq_true] using hall)]
  simp [List.isEmpty_iff, hne]

/-- `parseInt` is defined on every nonempty slice of a 13-digit string. -/
theorem slice_parses {id : Str} (h13 : id.length = 13)
    (hall : id.all Char.isDigit = true) (k n : Nat) (hn : 0 < n)
    (hkn : k + n ≤ 13) :
    jsParseInt ((id.drop k).take n) =
      some (digitsToNat ((id.drop k).take n) 0) := by
  apply jsParseInt_of_digits
  · have := slice_length h13 k n hkn
    intro hnil
    rw [hnil] at this
    simp at this
    omega
  · exact slice_digits hall k n

/-- JS `Date` construction round-trips exactly on real calendar dates. -/
theorem jsMakeDate_eq_iff (year : Nat) {mm dd : Nat} (h1 : 1 ≤ mm) (h2 : mm ≤ 12)
    (h3 : 1 ≤ dd) (h4 : dd ≤ 31) :
    jsMakeDate year (mm - 1) dd = ⟨year, mm, dd⟩ ↔ dd ≤ daysInMonth year mm := by
  have hmm : mm - 1 + 1 = mm := Nat.sub_add_cancel h1
  unfold jsMakeDate
  rw [hmm]
  by_cases hdim : dd ≤ daysInMonth year mm
  · simp [hdim, hmm]
  · rw [if_neg hdim]
    by_cases h11 : mm - 1 = 11
    · simp only [h11, if_pos rfl]
      constructor
      · intro h
        have := congrArg SimpleDate.year h
        simp at this
      · intro h; exact absurd h hdim
    · rw [if_neg h11]
      constructor
      · intro h
        have := congrArg SimpleDate.month h
        simp at this
        omega
      · intro h; exact absurd h hdim

/-- Exact failure condition of the date step, in the claim's vocabulary. -/
theorem parseDate_none_iff (today : SimpleDate) (seg : RawSegments)
    {yy mm dd : Nat}
    (hy : jsParseInt seg.yearPart = some yy)
    (hm : jsParseInt seg.monthPart = some mm)
    (hd : jsParseInt seg.dayPart = some dd) :
    parseDate today seg = none ↔
      (mm < 1 ∨ 12 < mm ∨ dd < 1 ∨ 31 < dd ∨
       isRealCalendarDate (resolveYear today.year yy) mm dd = false ∨
       dateLt today ⟨resolveYear today.year yy, mm, dd⟩ = true) := by
  simp only [parseDate, hy, hm, hd]
  by_cases hr1 : mm < 1 ∨ 12 < mm
  · rw [if_pos hr1]
    exact iff_of_true rfl (by tauto)
  · rw [if_neg hr1]
    by_cases hr2 : dd < 1 ∨ 31 < dd
    · rw [if_pos hr2]
      exact iff_of_true rfl (by tauto)
    · rw [if_neg hr2]
      push_neg at hr1 hr2
      have heq := jsMakeDate_eq_iff (resolveYear today.year yy)
        hr1.1 hr1.2 hr2.1 hr2.2
      by_cases hreal : dd ≤ daysInMonth (resolveYear today.year yy) mm
      · have hdate : jsMakeDate (resolveYear today.year yy) (mm - 1) dd =
            ⟨resolveYear today.year yy, mm, dd⟩ := heq.mpr hreal
        rw [hdate]
        rw [if_neg (by simp)]
        have hrc : isRealCalendarDate (resolveYear today.year yy) mm dd = true := by
          simp only [isRealCalendarDate, decide_eq_true_eq]
          exact ⟨hr1.1, hr1.2, hr2.1, hreal⟩
        by_cases hfut : dateLt today ⟨resolveYear today.year yy, mm, dd⟩ = true
        · rw [if_pos hfut]
          exact iff_of_true rfl (by tauto)
        · rw [if_neg hfut]
          constructor
          · intro h
            exact absurd h (Option.some_ne_none _)
          · intro h
            rcases h with h | h | h | h | h | h
            · omega
            · omega
            · omega
            · omega
            · rw [hrc] at h
              cases h
            · exact absurd h hfut
      · have hdate : jsMakeDate (resolveYear today.year yy) (mm - 1) dd ≠
            ⟨resolveYear today.year yy, mm, dd⟩ := fun h => hreal (heq.mp h)
        rw [if_pos (by
          by_contra hcon
          push_neg at hcon
          refine hdate ?_
          calc jsMakeDate (resolveYear today.year yy) (mm - 1) dd
              = ⟨(jsMakeDate (resolveYear today.year yy) (mm - 1) dd).year,
                 (jsMakeDate (resolveYear today.year yy) (mm - 1) dd).month,
                 (jsMakeDate (resolveYear today.year yy) (mm - 1) dd).day⟩ := rfl
            _ = ⟨resolveYear today.year yy, mm, dd⟩ := by
                rw [hcon.1, hcon.2.1, hcon.2.2])]
        refine iff_of_true rfl ?_
        have hrc : isRealCalendarDate (resolveYear today.year yy) mm dd = false := by
          simp only [isRealCalendarDate, decide_eq_false_iff_not]
          exact fun h => hreal h.2.2.2
        tauto

/-- A date accepted by the date step is never in the future. -/
theorem parseDate_some_not_future {today : SimpleDate} {seg : RawSegments}
    {d : SimpleDate} (h : parseDate today seg = some d) :
    dateLt today d = false := by
  rw [show parseDate today seg = (match jsParseInt seg.yearPart,
      jsParseInt seg.monthPart, jsParseInt seg.dayPart with
    | some yy, some mm, some dd =>
      if mm < 1 ∨ 12 < mm then none
      else if dd < 1 ∨ 31 < dd then none
      else if (jsMakeDate (resolveYear today.year yy) (mm - 1) dd).year ≠
            resolveYear today.year yy ∨
          (jsMakeDate (resolveYear today.year yy) (mm - 1) dd).month ≠ mm ∨
          (jsMakeDate (resolveYear today.year yy) (mm - 1) dd).day ≠ dd then none
      else if dateLt today (jsMakeDate (resolveYear today.year yy) (mm - 1) dd) =
          true then none
      else some (jsMakeDate (resolveYear today.year yy) (mm - 1) dd)
    | _, _, _ => none) from rfl] at h
  split at h
  · split_ifs at h with h1 h2 h3 h4
    injection h with h5
    rw [← h5]
    simpa using h4
  · cases h

/-- Inversion: everything `parse` guarantees about a valid outcome. -/
theorem parse_valid_inversion {today : SimpleDate} {s : Str} {p : ParsedID}
    (h : parse today s = IDResult.valid p) :
    matchesIdRegex (jsTrim s) = true ∧
    parseDate today (extractSegments (jsTrim s)) = some p.dateOfBirth ∧
    luhn (jsTrim s) = true ∧
    p.idNumber = jsTrim s ∧
    p.segments = extractSegments (jsTrim s) ∧
    p.age = calculateAge today p.dateOfBirth ∧
    p.gender = deriveGender (jsParseInt (extractSegments (jsTrim s)).genderSequence) ∧
    p.citizenship = (if (extractSegments (jsTrim s)).citizenshipDigit = ['0']
        then CitizenshipStatus.citizen else CitizenshipStatus.permanent_resident) ∧
    p.isCitizen = ((extractSegments (jsTrim s)).citizenshipDigit == ['0']) ∧
    ((extractSegments (jsTrim s)).citizenshipDigit = ['0'] ∨
     (extractSegments (jsTrim s)).citizenshipDigit = ['1'] ∨
     (extractSegments (jsTrim s)).citizenshipDigit = ['2']) := by
  cases hf : matchesIdRegex (jsTrim s) with
  | false =>
    rw [parse_of_fmt_false today hf] at h
    simp [invalid] at h
  | true =>
    cases hdd : parseDate today (extractSegments (jsTrim s)) with
    | none =>
      rw [parse_of_date_none hf hdd] at h
      simp [invalid] at h
    | some d =>
      by_cases hc : (extractSegments (jsTrim s)).citizenshipDigit = ['0'] ∨
          (extractSegments (jsTrim s)).citizenshipDigit = ['1'] ∨
          (extractSegments (jsTrim s)).citizenshipDigit = ['2']
      · cases hl : luhn (jsTrim s) with
        | false =>
          rw [parse_of_luhn_false hf hdd hc hl] at h
          simp [invalid] at h
        | true =>
          rw [parse_of_all_ok hf hdd hc hl] at h
          injection h with h'
          obtain rfl : p = _ := h'.symm
          exact ⟨rfl, rfl, rfl, rfl, rfl, rfl, rfl, rfl, rfl, hc⟩
      · push_neg at hc
        rw [parse_of_cit_bad hf hdd hc] at h
        simp [invalid] at h

/-- The Luhn loop on an all-digit list computes the weighted sum. -/
theorem luhnGo_digits (l : Str) : ∀ (dbl : Bool) (sum : Nat),
    l.all Char.isDigit = true →
    luhnGo l dbl sum = some (sum + weightedSumRL (l.map digitVal) dbl) := by
  induction l with
  | nil => intro dbl sum _; simp [luhnGo, weightedSumRL]
  | cons c cs ih =>
    intro dbl sum hall
    rw [List.all_cons, Bool.and_eq_true] at hall
    rw [luhnGo, if_pos hall.1]
    rw [ih (!dbl) _ hall.2]
    simp [weightedSumRL]
    omega

/-- The Luhn loop aborts on any list containing a non-digit. -/
theorem luhnGo_nondigit (l : Str) : ∀ (dbl : Bool) (sum : Nat),
    l.all Char.isDigit = false →
    luhnGo l dbl sum = none := by
  induction l with
  | nil => intro dbl sum h; simp at h
  | cons c cs ih =>
    intro dbl sum hall
    rw [List.all_cons, Bool.and_eq_false_iff] at hall
    cases hall with
    | inl h => rw [luhnGo, if_neg (by simp [h])]
    | inr h =>
      cases hdig : c.isDigit with
      | false => rw [luhnGo, if_neg (by simp [hdig])]
      | true =>
        rw [luhnGo, if_pos hdig]
        exact ih (!dbl) _ h

/-- Decomposition of a length-13 prefix into the seven slice widths. -/
theorem take_split_13 (l : Str) :
    l.take 2 ++ ((l.drop 2).take 2 ++ ((l.drop 4).take 2 ++ ((l.drop 6).take 4 ++
      ((l.drop 10).take 1 ++ ((l.drop 11).take 1 ++ (l.drop 12).take 1))))) =
    l.take 13 := by
  rw [show (13 : Nat) = 2 + 11 from rfl, List.take_add]
  congr 1
  rw [show (11 : Nat) = 2 + 9 from rfl, List.take_add, List.drop_drop]
  norm_num
  congr 1
  rw [show (9 : Nat) = 2 + 7 from rfl, List.take_add, List.drop_drop]
  norm_num
  congr 1
  rw [show (7 : Nat) = 4 + 3 from rfl, List.take_add, List.drop_drop]
  norm_num
  congr 1
  rw [show (3 : Nat) = 1 + 2 from rfl, List.take_add, List.drop_drop]
  norm_num
  rw [show (2 : Nat) = 1 + 1 from rfl, List.take_add, List.drop_drop]

/-- Same decomposition with the appends grouped as they occur in C8. -/
theorem take_split_13_flat (l : Str) :
    l.take 2 ++ (l.drop 2).take 2 ++ (l.drop 4).take 2 ++ (l.drop 6).take 4 ++
      (l.drop 10).take 1 ++ (l.drop 11).take 1 ++ (l.drop 12).take 1 =
    l.take 13 := by
  rw [← take_split_13 l]
  simp [List.append_assoc]

/-- C1: for every input string, `parse` applies the four checks in the
fixed order format → calendar date → citizenship digit → Luhn checksum,
returning an Invalid outcome tagged with the reason of the first failing
check (each reason is equivalent to "its check fails and all earlier
checks pass", so later checks never influence the reported reason), a
Valid outcome exactly when all four pass, and — being a total function —
it never throws and always returns exactly one outcome value. -/
theorem parse_runs_checks_in_order (today : SimpleDate) (s : Str) :
    (parse today s = invalid (jsTrim s) InvalidReason.INVALID_FORMAT ↔
       matchesIdRegex (jsTrim s) = false) ∧
    (parse today s = invalid (jsTrim s) InvalidReason.INVALID_DATE ↔
       matchesIdRegex (jsTrim s) = true ∧
       parseDate today (extractSegments (jsTrim s)) = none) ∧
    (parse today s = invalid (jsTrim s) InvalidReason.INVALID_CITIZENSHIP_DIGIT ↔
       matchesIdRegex (jsTrim s) = true ∧
       (parseDate today (extractSegments (jsTrim s))).isSome = true ∧
       ((extractSegments (jsTrim s)).citizenshipDigit ≠ ['0'] ∧
        (extractSegments (jsTrim s)).citizenshipDigit ≠ ['1'] ∧
        (extractSegments (jsTrim s)).citizenshipDigit ≠ ['2'])) ∧
    (parse today s = invalid (jsTrim s) InvalidReason.INVALID_CHECKSUM ↔
       matchesIdRegex (jsTrim s) = true ∧
       (parseDate today (extractSegments (jsTrim s))).isSome = true ∧
       ((extractSegments (jsTrim s)).citizenshipDigit = ['0'] ∨
        (extractSegments (jsTrim s)).citizenshipDigit = ['1'] ∨
        (extractSegments (jsTrim s)).citizenshipDigit = ['2']) ∧
       luhn (jsTrim s) = false) ∧
    ((∃ p, parse today s = IDResult.valid p) ↔
       matchesIdRegex (jsTrim s) = true ∧
       (parseDate today (extractSegments (jsTrim s))).isSome = true ∧
       ((extractSegments (jsTrim s)).citizenshipDigit = ['0'] ∨
        (extractSegments (jsTrim s)).citizenshipDigit = ['1'] ∨
        (extractSegments (jsTrim s)).citizenshipDigit = ['2']) ∧
       luhn (jsTrim s) = true) ∧
    ((∃ p, parse today s = IDResult.valid p) ∨
     (∃ i, parse today s = IDResult.invalid i)) := by
  obtain ⟨h1, h2, h3, h4, h5⟩ := parse_cases_iff today s
  refine ⟨h1, h2, h3, h4, h5, ?_⟩
  cases hp : parse today s with
  | valid p => exact Or.inl ⟨p, rfl⟩
  | invalid i => exact Or.inr ⟨i, rfl⟩

/-- C2: for every trimmed input of exactly 13 ASCII digits, `parse`
returns Invalid with reason `INVALID_DATE` iff the month is outside 1–12,
the day is outside 1–31, the triple is not a real calendar date after
resolving the two-digit year (2000+YY when that does not exceed the
current year, else 1900+YY), or the resolved date is strictly after the
current date. -/
theorem parse_invalid_date_iff (today : SimpleDate) (s : Str)
    (hf : matchesIdRegex (jsTrim s) = true) :
    parse today s = invalid (jsTrim s) InvalidReason.INVALID_DATE ↔
      (digitsToNat (extractSegments (jsTrim s)).monthPart 0 < 1 ∨
       12 < digitsToNat (extractSegments (jsTrim s)).monthPart 0 ∨
       digitsToNat (extractSegments (jsTrim s)).dayPart 0 < 1 ∨
       31 < digitsToNat (extractSegments (jsTrim s)).dayPart 0 ∨
       isRealCalendarDate
         (resolveYear today.year
           (digitsToNat (extractSegments (jsTrim s)).yearPart 0))
         (digitsToNat (extractSegments (jsTrim s)).monthPart 0)
         (digitsToNat (extractSegments (jsTrim s)).dayPart 0) = false ∨
       dateLt today
         ⟨resolveYear today.year
            (digitsToNat (extractSegments (jsTrim s)).yearPart 0),
          digitsToNat (extractSegments (jsTrim s)).monthPart 0,
          digitsToNat (extractSegments (jsTrim s)).dayPart 0⟩ = true) := by
  obtain ⟨h13, hall⟩ := matchesIdRegex_iff.mp hf
  have hy : jsParseInt (extractSegments (jsTrim s)).yearPart =
      some (digitsToNat (extractSegments (jsTrim s)).yearPart 0) :=
    slice_parses h13 hall 0 2 (by omega) (by omega)
  have hm : jsParseInt (extractSegments (jsTrim s)).monthPart =
      some (digitsToNat (extractSegments (jsTrim s)).monthPart 0) :=
    slice_parses h13 hall 2 2 (by omega) (by omega)
  have hd : jsParseInt (extractSegments (jsTrim s)).dayPart =
      some (digitsToNat (extractSegments (jsTrim s)).dayPart 0) :=
    slice_parses h13 hall 4 2 (by omega) (by omega)
  have hmain := (parse_cases_iff today s).2.1
  rw [hmain, parseDate_none_iff today (extractSegments (jsTrim s)) hy hm hd]
  simp [hf]

/-- C2 witness: the February-30 vector `9002309818089` instantiates the
characterization, with the format hypothesis discharged by computation. -/
theorem parse_invalid_date_iff_witness :
    (parse todayRef feb30ID = invalid (jsTrim feb30ID) InvalidReason.INVALID_DATE ↔
      (digitsToNat (extractSegments (jsTrim feb30ID)).monthPart 0 < 1 ∨
       12 < digitsToNat (extractSegments (jsTrim feb30ID)).monthPart 0 ∨
       digitsToNat (extractSegments (jsTrim feb30ID)).dayPart 0 < 1 ∨
       31 < digitsToNat (extractSegments (jsTrim feb30ID)).dayPart 0 ∨
       isRealCalendarDate
         (resolveYear todayRef.year
           (digitsToNat (extractSegments (jsTrim feb30ID)).yearPart 0))
         (digitsToNat (extractSegments (jsTrim feb30ID)).monthPart 0)
         (digitsToNat (extractSegments (jsTrim feb30ID)).dayPart 0) = false ∨
       dateLt todayRef
         ⟨resolveYear todayRef.year
            (digitsToNat (extractSegments (jsTrim feb30ID)).yearPart 0),
          digitsToNat (extractSegments (jsTrim feb30ID)).monthPart 0,
          digitsToNat (extractSegments (jsTrim feb30ID)).dayPart 0⟩ = true)) :=
  parse_invalid_date_iff todayRef feb30ID (by decide)

/-- C3: `luhn` returns true iff every character is an ASCII digit and the
right-to-left weighted sum (doubling alternate digits starting from the
second-from-right, subtracting 9 from doubled values above 9) is 0 mod 10;
in particular the empty string passes, and (by the iff) any string with a
non-digit character fails. -/
theorem luhn_characterization (s : Str) :
    (luhn s = true ↔
      s.all Char.isDigit = true ∧
      weightedSumRL (s.reverse.map digitVal) false % 10 = 0) ∧
    luhn ([] : Str) = true := by
  refine ⟨?_, rfl⟩
  unfold luhn
  cases hall : s.all Char.isDigit with
  | false =>
    rw [luhnGo_nondigit _ _ _ (by rw [List.all_reverse]; exact hall)]
    simp
  | true =>
    rw [luhnGo_digits _ _ _ (by rw [List.all_reverse]; exact hall)]
    simp

/-- C4: every string whose trimmed form is not exactly 13 ASCII digits
parses to Invalid with reason `INVALID_FORMAT`. -/
theorem parse_invalid_format_of_bad_shape (today : SimpleDate) (s : Str)
    (h : ¬((jsTrim s).length = 13 ∧ (jsTrim s).all Char.isDigit = true)) :
    parse today s = invalid (jsTrim s) InvalidReason.INVALID_FORMAT := by
  apply parse_of_fmt_false today
  rw [← Bool.not_eq_true, matchesIdRegex_iff]
  exact h

/-- C4 witness: the three-character input fails the format check. -/
theorem parse_invalid_format_of_bad_shape_witness :
    parse todayRef badID = invalid (jsTrim badID) InvalidReason.INVALID_FORMAT :=
  parse_invalid_format_of_bad_shape todayRef badID (by decide)

/-- C5: on every Valid outcome, gender is male iff the 4-digit gender
sequence parses to at least 5000; citizenship is citizen iff the
citizenship digit is 0, with digits 1 and 2 both mapping to permanent
resident; and the citizen flag is true iff the digit is exactly 0. -/
theorem parse_valid_derivation (today : SimpleDate) (s : Str) (p : ParsedID)
    (h : parse today s = IDResult.valid p) :
    (p.gender = Gender.male ↔ 5000 ≤ digitsToNat p.segments.genderSequence 0) ∧
    (p.citizenship = CitizenshipStatus.citizen ↔
      p.segments.citizenshipDigit = ['0']) ∧
    (p.segments.citizenshipDigit = ['1'] ∨ p.segments.citizenshipDigit = ['2'] →
      p.citizenship = CitizenshipStatus.permanent_resident) ∧
    (p.isCitizen = true ↔ p.segments.citizenshipDigit = ['0']) := by
  obtain ⟨hf, hdd, hl, hid, hseg, hage, hgen, hcit, hisc, hcd⟩ :=
    parse_valid_inversion h
  obtain ⟨h13, hall⟩ := matchesIdRegex_iff.mp hf
  have hgs := slice_parses h13 hall 6 4 (by omega) (by omega)
  refine ⟨?_, ?_, ?_, ?_⟩
  · rw [hgen, hseg]
    simp only [extractSegments]
    rw [hgs]
    simp only [deriveGender]
    by_cases h5 : 5000 ≤ digitsToNat (List.take 4 (List.drop 6 (jsTrim s))) 0
    · rw [if_pos h5]
      simp [h5]
    · rw [if_neg h5]
      simp [h5]
  · rw [hcit, hseg]
    by_cases h0 : (extractSegments (jsTrim s)).citizenshipDigit = ['0']
    · rw [if_pos h0]
      simp [h0]
    · rw [if_neg h0]
      simp [h0]
  · intro hc12
    rw [hcit]
    rw [if_neg (by
      rw [hseg] at hc12
      rcases hc12 with h1 | h1 <;> rw [h1] <;> decide)]
  · rw [hisc, hseg]
    simp [beq_iff_eq]

/-- C5 witness: the valid vector `9001049818080` instantiates the
derivation facts, with the parse hypothesis discharged by computation. -/
theorem parse_valid_derivation_witness :
    (vmcParsed.gender = Gender.male ↔
      5000 ≤ digitsToNat vmcParsed.segments.genderSequence 0) ∧
    (vmcParsed.citizenship = CitizenshipStatus.citizen ↔
      vmcParsed.segments.citizenshipDigit = ['0']) ∧
    (vmcParsed.segments.citizenshipDigit = ['1'] ∨
        vmcParsed.segments.citizenshipDigit = ['2'] →
      vmcParsed.citizenship = CitizenshipStatus.permanent_resident) ∧
    (vmcParsed.isCitizen = true ↔ vmcParsed.segments.citizenshipDigit = ['0']) :=
  parse_valid_derivation todayRef vmcID vmcParsed (by decide)

/-- C6: on every Valid outcome the age equals current year minus resolved
birth year, decremented by one exactly when today's (month, day) pair is
earlier than the birth (month, day) pair (a birth date equal to today
counts the birthday as having occurred), and the age is never negative. -/
theorem parse_valid_age_floor (today : SimpleDate) (s : Str) (p : ParsedID)
    (h : parse today s = IDResult.valid p) :
    p.age = (if today.month < p.dateOfBirth.month ∨
        (today.month = p.dateOfBirth.month ∧ today.day < p.dateOfBirth.day)
      then (today.year : Int) - (p.dateOfBirth.year : Int) - 1
      else (today.year : Int) - (p.dateOfBirth.year : Int)) ∧
    0 ≤ p.age := by
  obtain ⟨hf, hdd, hl, hid, hseg, hage, hgen, hcit, hisc, hcd⟩ :=
    parse_valid_inversion h
  have hnf := parseDate_some_not_future hdd
  rw [dateLt, decide_eq_false_iff_not] at hnf
  push_neg at hnf
  constructor
  · rw [hage, calculateAge]
    by_cases hb : today.month > p.dateOfBirth.month ∨
        (today.month = p.dateOfBirth.month ∧ today.day ≥ p.dateOfBirth.day)
    · rw [if_pos hb, if_neg (by omega)]
    · rw [if_neg hb, if_pos (by omega)]
  · rw [hage, calculateAge]
    by_cases hb : today.month > p.dateOfBirth.month ∨
        (today.month = p.dateOfBirth.month ∧ today.day ≥ p.dateOfBirth.day)
    · rw [if_pos hb]
      omega
    · rw [if_neg hb]
      omega

/-- C6 witness: the valid vector instantiates the age facts (born
1990-01-04, reference date 2025-10-11, age 35). -/
theorem parse_valid_age_floor_witness :
    vmcParsed.age = (if todayRef.month < vmcParsed.dateOfBirth.month ∨
        (todayRef.month = vmcParsed.dateOfBirth.month ∧
         todayRef.day < vmcParsed.dateOfBirth.day)
      then (todayRef.year : Int) - (vmcParsed.dateOfBirth.year : Int) - 1
      else (todayRef.year : Int) - (vmcParsed.dateOfBirth.year : Int)) ∧
    0 ≤ vmcParsed.age :=
  parse_valid_age_floor todayRef vmcID vmcParsed (by decide)

/-- C7: `isValid` is true exactly on Valid parses, and each accessor
returns the corresponding field of `parse`'s outcome when Valid and
`none` when Invalid — all five delegate to the same decoding path. -/
theorem accessors_delegate_to_parse (today : SimpleDate) (s : Str) :
    (∃ p, parse today s = IDResult.valid p ∧ isValid today s = true ∧
      getDateOfBirth today s = some p.dateOfBirth ∧
      getGender today s = some p.gender ∧
      getAge today s = some p.age ∧
      getCitizenship today s = some p.citizenship) ∨
    (∃ i, parse today s = IDResult.invalid i ∧ isValid today s = false ∧
      getDateOfBirth today s = none ∧ getGender today s = none ∧
      getAge today s = none ∧ getCitizenship today s = none) := by
  cases hp : parse today s with
  | valid p =>
    left
    exact ⟨p, rfl, by simp [isValid, hp], by simp [getDateOfBirth, hp],
      by simp [getGender, hp], by simp [getAge, hp], by simp [getCitizenship, hp]⟩
  | invalid i =>
    right
    exact ⟨i, rfl, by simp [isValid, hp], by simp [getDateOfBirth, hp],
      by simp [getGender, hp], by simp [getAge, hp], by simp [getCitizenship, hp]⟩

/-- C8: on every Valid outcome the seven raw segments have fixed widths
2, 2, 2, 4, 1, 1, 1 and concatenate, in order, to exactly the trimmed
13-character input.  (Segments are exposed only on the Valid variant:
the `InvalidID` structure has no segments field at all.) -/
theorem segments_fixed_widths_and_concat (today : SimpleDate) (s : Str)
    (p : ParsedID) (h : parse today s = IDResult.valid p) :
    p.segments.yearPart.length = 2 ∧ p.segments.monthPart.length = 2 ∧
    p.segments.dayPart.length = 2 ∧ p.segments.genderSequence.length = 4 ∧
    p.segments.citizenshipDigit.length = 1 ∧ p.segments.legacyDigit.length = 1 ∧
    p.segments.checksumDigit.length = 1 ∧
    p.segments.yearPart ++ p.segments.monthPart ++ p.segments.dayPart ++
      p.segments.genderSequence ++ p.segments.citizenshipDigit ++
      p.segments.legacyDigit ++ p.segments.checksumDigit = jsTrim s ∧
    (jsTrim s).length = 13 := by
  obtain ⟨hf, hdd, hl, hid, hseg, hage, hgen, hcit, hisc, hcd⟩ :=
    parse_valid_inversion h
  obtain ⟨h13, hall⟩ := matchesIdRegex_iff.mp hf
  rw [hseg]
  simp only [extractSegments, List.drop_zero]
  refine ⟨?_, ?_, ?_, ?_, ?_, ?_, ?_, ?_, h13⟩
  · exact slice_length h13 0 2 (by omega) |>.trans rfl
  · exact slice_length h13 2 2 (by omega)
  · exact slice_length h13 4 2 (by omega)
  · exact slice_length h13 6 4 (by omega)
  · exact slice_length h13 10 1 (by omega)
  · exact slice_length h13 11 1 (by omega)
  · exact slice_length h13 12 1 (by omega)
  · rw [take_split_13_flat (jsTrim s)]
    exact List.take_of_length_le (by omega)

/-- C8 witness: the valid vector instantiates the width and
concatenation facts. -/
theorem segments_fixed_widths_and_concat_witness :
    vmcParsed.segments.yearPart.length = 2 ∧
    vmcParsed.segments.monthPart.length = 2 ∧
    vmcParsed.segments.dayPart.length = 2 ∧
    vmcParsed.segments.genderSequence.length = 4 ∧
    vmcParsed.segments.citizenshipDigit.length = 1 ∧
    vmcParsed.segments.legacyDigit.length = 1 ∧
    vmcParsed.segments.checksumDigit.length = 1 ∧
    vmcParsed.segments.yearPart ++ vmcParsed.segments.monthPart ++
      vmcParsed.segments.dayPart ++ vmcParsed.segments.genderSequence ++
      vmcParsed.segments.citizenshipDigit ++ vmcParsed.segments.legacyDigit ++
      vmcParsed.segments.checksumDigit = jsTrim vmcID ∧
    (jsTrim vmcID).length = 13 :=
  segments_fixed_widths_and_concat todayRef vmcID vmcParsed (by decide)

/-- C9: every outcome (Valid or Invalid) stores the whitespace-trimmed
input as its `idNumber` (stated for an arbitrary input `t`), and feeding
a Valid outcome's stored `idNumber` back into `parse` under the same
current date yields an identical outcome. -/
theorem parse_stores_trimmed_and_roundtrips (today : SimpleDate) (t s : Str)
    (p : ParsedID) (h : parse today s = IDResult.valid p) :
    (parse today t).idNumber = jsTrim t ∧
    parse today p.idNumber = parse today s := by
  constructor
  · cases hf : matchesIdRegex (jsTrim t) with
    | false => rw [parse_of_fmt_false today hf]; rfl
    | true =>
      cases hdd : parseDate today (extractSegments (jsTrim t)) with
      | none => rw [parse_of_date_none hf hdd]; rfl
      | some d =>
        by_cases hc : (extractSegments (jsTrim t)).citizenshipDigit = ['0'] ∨
            (extractSegments (jsTrim t)).citizenshipDigit = ['1'] ∨
            (extractSegments (jsTrim t)).citizenshipDigit = ['2']
        · cases hl : luhn (jsTrim t) with
          | false => rw [parse_of_luhn_false hf hdd hc hl]; rfl
          | true => rw [parse_of_all_ok hf hdd hc hl]; rfl
        · push_neg at hc
          rw [parse_of_cit_bad hf hdd hc]; rfl
  · obtain ⟨hf, hdd, hl, hid, _⟩ := parse_valid_inversion h
    rw [hid, parse_jsTrim]

/-- C9 witness: the malformed input's Invalid outcome stores its trimmed
form, and the valid vector round-trips. -/
theorem parse_stores_trimmed_and_roundtrips_witness :
    (parse todayRef badID).idNumber = jsTrim badID ∧
    parse todayRef vmcParsed.idNumber = parse todayRef vmcID :=
  parse_stores_trimmed_and_roundtrips todayRef badID vmcID vmcParsed (by decide)

/-- C10: whenever the trimmed input passes the format check, the integer
parses of the year, month, day and gender-sequence segments are all
defined (`isSome`), i.e. the `NaN` branches are unreachable. -/
theorem format_check_implies_numeric_segments (s : Str)
    (hf : matchesIdRegex (jsTrim s) = true) :
    (jsParseInt (extractSegments (jsTrim s)).yearPart).isSome = true ∧
    (jsParseInt (extractSegments (jsTrim s)).monthPart).isSome = true ∧
    (jsParseInt (extractSegments (jsTrim s)).dayPart).isSome = true ∧
    (jsParseInt (extractSegments (jsTrim s)).genderSequence).isSome = true := by
  obtain ⟨h13, hall⟩ := matchesIdRegex_iff.mp hf
  simp only [extractSegments]
  refine ⟨?_, ?_, ?_, ?_⟩
  · rw [slice_parses h13 hall 0 2 (by omega) (by omega)]
    rfl
  · rw [slice_parses h13 hall 2 2 (by omega) (by omega)]
    rfl
  · rw [slice_parses h13 hall 4 2 (by omega) (by omega)]
    rfl
  · rw [slice_parses h13 hall 6 4 (by omega) (by omega)]
    rfl

/-- C10 witness: the valid vector's segments all parse to numbers. -/
theorem format_check_implies_numeric_segments_witness :
    (jsParseInt (extractSegments (jsTrim vmcID)).yearPart).isSome = true ∧
    (jsParseInt (extractSegments (jsTrim vmcID)).monthPart).isSome = true ∧
    (jsParseInt (extractSegments (jsTrim vmcID)).dayPart).isSome = true ∧
    (jsParseInt (extractSegments (jsTrim vmcID)).genderSequence).isSome = true :=
  format_check_implies_numeric_segments vmcID (by decide)
